import Mathlib

/-!
Shallow embedding of `eslint-plugin-dom-security` (rule `no-unsafe-redirect`
plus the runtime validator `ensureTrustedUrl`) and proofs about the claims of
its specification.

The embedding translates the TypeScript sources:
  * `src/utils/index.ts` — `isSafeLiteral`, `isGlobalIdentifier`,
    `getRedirectSinkType`, `getOpenCallInfo`;
  * `src/rules/no-unsafe-redirect.ts` — `isValueSafe`, `isRedirectObject`,
    the `AssignmentExpression` and `CallExpression` visitors, the `with`
    stack;
  * `src/runtime/ensure-trusted-url.ts` — `ensureTrustedUrl`.

External collaborators are modelled as explicit parameters:
  * the TypeScript type oracle (`services`/`checker`) becomes a function
    `Node → Option Ty`; an absent oracle is `fun _ => none`;
  * the host's scope lookup at an identifier occurrence
    (`sourceCode.getScope(node).set.get(name)` followed by reading
    `variable.defs.length`) becomes a function `String → Option Nat`
    returning the recorded-definition count of the variable listed in the
    innermost scope's OWN variable set, or `none` when that set does not
    list the name — the lookup never walks up the scope chain, so
    variables declared in enclosing scopes are not found;
  * the browser URL parser (`new URL(url, base)`) becomes a function
    `String → Option String → Option ParsedUrl`.
-/

namespace DomSecurity

/-! ## Syntax-tree model (the node kinds the rule inspects) -/

/-- The value carried by an ESTree `Literal` node; the rule only ever
distinguishes string values (`typeof value === "string"`) from the rest. -/
inductive LitVal where
  | str (s : String)
  | num (n : Int)
  | bool (b : Bool)
  | null
deriving Repr

/-- ESTree expression nodes, restricted to the kinds the rule reads.
`template` carries the raw text of the quasis and the interpolated
expressions; `member` carries the `computed` flag. -/
inductive Node where
  | ident (name : String)
  | lit (value : LitVal)
  | template (quasis : List String) (exprs : List Node)
  | binary (op : String) (left : Node) (right : Node)
  | member (object : Node) (property : Node) (computed : Bool)
  | call (callee : Node) (args : List Node)
  | chain (expr : Node)
deriving Repr

/-- `node.type === AST_NODE_TYPES.Identifier`. -/
def Node.isIdent : Node → Bool
  | .ident _ => true
  | _ => false

/-! ## Type-oracle model

The rule queries the TypeScript checker through a small set of operations:
symbol name, union/intersection decomposition, string-literal-ness,
the property list (for the `__brand` marker), and `typeToString`.
`props` maps a property name to the string-literal value of the property's
type when that type is a string-literal type, else `none` (this collapses
`checker.getTypeOfSymbol(prop)` + `isStringLiteral()` + `.value` into one
lookup).  Unions and intersections are represented as binary nodes; an
n-ary union is a nest of binary ones, which `type.types.some(...)`
traverses the same way. -/
inductive Ty where
  | base (symbolName : Option String) (strLitVal : Option String)
      (props : List (String × Option String)) (display : String)
  | union (symbolName : Option String) (a : Ty) (b : Ty)
      (props : List (String × Option String)) (display : String)
  | inter (symbolName : Option String) (a : Ty) (b : Ty)
      (props : List (String × Option String)) (display : String)
deriving Repr

/-- `type.getProperties()` (collapsed as described on `Ty`). -/
def Ty.props : Ty → List (String × Option String)
  | .base _ _ ps _ => ps
  | .union _ _ _ ps _ => ps
  | .inter _ _ _ ps _ => ps

/-- `checker.typeToString(type)`. -/
def Ty.display : Ty → String
  | .base _ _ _ d => d
  | .union _ _ _ _ d => d
  | .inter _ _ _ _ d => d

/-- `type.isStringLiteral()`. -/
def Ty.isStrLit : Ty → Bool
  | .base _ (some _) _ _ => true
  | _ => false

/-- `hasTypeName` from the rule: match if the type's symbol has the target
name, else recursively check the members of a union or intersection. -/
def hasTypeName : Ty → String → Bool
  | .base s _ _ _, target => s == some target
  | .union s a b _ _, target =>
      s == some target || hasTypeName a target || hasTypeName b target
  | .inter s a b _ _, target =>
      s == some target || hasTypeName a target || hasTypeName b target

/-- `isTrustedUrlType` from the rule: the type exposes a `__brand` property
whose own type is the string-literal type `"TrustedUrl"`. -/
def isTrustedUrlType (t : Ty) : Bool :=
  match t.props.lookup "__brand" with
  | some (some v) => v == "TrustedUrl"
  | some none => false
  | none => false

/-- The type oracle: `getType` of the rule, `none` when the parser services
or the checker are unavailable or the lookup throws. -/
abbrev TypeOracle := Node → Option Ty

/-- The host's scope lookup at an identifier occurrence:
`sourceCode.getScope(node).set.get(name)?.defs.length`.  `Scope#set`
contains only the variables declared in that innermost scope itself, so
the function returns `none` both for globals and for names whose binding
sits in an enclosing (non-innermost) scope — the source never walks the
`upper` chain. -/
abbrev ScopeQuery := String → Option Nat

/-! ## Utilities (`src/utils/index.ts`) -/

/-- `isSafeLiteral`: a string literal, or a template literal with zero
interpolations. -/
def isSafeLiteral : Node → Bool
  | .lit (.str _) => true
  | .template _ exprs => exprs.length == 0
  | _ => false

/-- `isGlobalIdentifier`: global when the host resolves no variable for the
name, or when the resolved variable has zero recorded definitions. -/
def isGlobalIdentifier (rv : ScopeQuery) (name : String) : Bool :=
  match rv name with
  | none => true
  | some defs => defs == 0

/-- The sink kinds `getRedirectSinkType` may name (its declared return
type also lists `location`). -/
inductive SinkType where
  | href | replace | assign | navigate | location
deriving DecidableEq, Repr

/-- `getRedirectSinkType`: switch on the member expression's property name
when the property is an identifier; every other shape yields `null`.
(The TypeScript signature restricts the argument to member expressions;
non-member nodes fall into the final catch-all.) -/
def getRedirectSinkType : Node → Option SinkType
  | .member _ (.ident pname) _ =>
      if pname == "href" then some .href
      else if pname == "replace" then some .replace
      else if pname == "assign" then some .assign
      else if pname == "navigate" then some .navigate
      else none
  | _ => none

/-- Result of `getOpenCallInfo`. -/
inductive OpenCallInfo where
  | global (identifierName : String)
  | method (object : Node)
deriving Repr

/-- `getOpenCallInfo`: a direct call `open(...)`, or a method call
`<expr>.open(...)`. -/
def getOpenCallInfo : Node → Option OpenCallInfo
  | .call callee _ =>
      match callee with
      | .ident name => if name == "open" then some (.global name) else none
      | .member obj (.ident pname) _ =>
          if pname == "open" then some (.method obj) else none
      | _ => none
  | _ => none

/-! ## Safety classifier (`isValueSafe`) -/

/-- The regular expression test `/^[/\\]+$/.test(s)`: non-empty and made of
slash or backslash characters only. -/
def slashOnly (s : String) : Bool :=
  s.length > 0 && s.data.all (fun c => c == '/' || c == '\\')

/-- The `while` loop of `isValueSafe`: descend through the left children of
nested `+` binary expressions. -/
def descendPlusLeft : Node → Node
  | .binary op l r => if op == "+" then descendPlusLeft l else .binary op l r
  | n => n

/-- The tail of `isValueSafe` (after the literal, template, and `+`-chain
blocks): consult the type oracle for the brand or a string-literal type,
then accept a call to an identifier literally named `ensureTrustedUrl`. -/
def typeOrNameFallbackSafe (gt : TypeOracle) (n : Node) : Bool :=
  (match gt n with
   | some t => isTrustedUrlType t || t.isStrLit
   | none => false) ||
  (match n with
   | .call (.ident cname) _ => cname == "ensureTrustedUrl"
   | _ => false)

/-- `isValueSafe` from the rule. -/
def isValueSafe (gt : TypeOracle) (n : Node) : Bool :=
  if isSafeLiteral n then true
  else
    match n with
    | .template quasis exprs =>
        if exprs.length > 0 then
          match quasis.head? with
          | some q => q.length > 0 && !(slashOnly q)
          | none => false
        else typeOrNameFallbackSafe gt (.template quasis exprs)
    | .binary op l r =>
        if op == "+" then
          match descendPlusLeft l with
          | .lit (.str s) => !(slashOnly s)
          | .template qs _ =>
              if qs.length == 1 then
                match qs.head? with
                | some v => v.length > 0 && !(slashOnly v)
                | none => false
              else false
          | _ => false
        else typeOrNameFallbackSafe gt (.binary op l r)
    | _ => typeOrNameFallbackSafe gt n

/-! ## Redirect-object resolver (`isRedirectObject`) -/

/-- The sink-object kinds `isRedirectObject` resolves to. -/
inductive RKind where
  | location | navigation | window
deriving DecidableEq, Repr

/-- An entry of the rule's `trackedVariables` map. -/
structure VariableInfo where
  isLocation : Bool
  isNavigation : Bool
  isWindow : Bool
deriving Repr

/-- The type-information branch at the top of `isRedirectObject`. -/
def typeRedirectKind (gt : TypeOracle) (n : Node) : Option RKind :=
  match gt n with
  | some t =>
      if hasTypeName t "Location" then some .location
      else if hasTypeName t "Window" then some .window
      else if hasTypeName t "typeof globalThis" then some .window
      else if hasTypeName t "Document" then some .window
      else none
  | none => none

/-- The global-identifier branch of `isRedirectObject` (reached when the
name is absent from `trackedVariables` or its entry has all flags off). -/
def globalRedirectKind (rv : ScopeQuery) (name : String) : Option RKind :=
  if isGlobalIdentifier rv name then
    if name == "location" then some .location
    else if name == "window" then some .window
    else if name == "navigation" then some .navigation
    else none
  else none

/-- `isRedirectObject` from the rule: type information first, then tracked
aliases and unshadowed globals for identifiers, then the member-expression
special cases and the recursive `window.<location|navigation>` step. -/
def isRedirectObject (gt : TypeOracle) (rv : ScopeQuery)
    (tracked : List (String × VariableInfo)) : Node → Option RKind
  | .ident name =>
      (match typeRedirectKind gt (.ident name) with
       | some k => some k
       | none =>
           match tracked.lookup name with
           | some vi =>
               if vi.isLocation then some .location
               else if vi.isNavigation then some .navigation
               else if vi.isWindow then some .window
               else globalRedirectKind rv name
           | none => globalRedirectKind rv name)
  | .member object property computed =>
      (match typeRedirectKind gt (.member object property computed) with
       | some k => some k
       | none =>
           let special : Option RKind :=
             match object, property with
             | .ident oname, .ident pname =>
                 let isGlobal := isGlobalIdentifier rv oname
                 if pname == "location" && isGlobal &&
                     (oname == "window" || oname == "document" ||
                       oname == "globalThis") then
                   some .location
                 else if oname == "window" && pname == "navigation" && isGlobal
                 then some .navigation
                 else none
             | _, _ => none
           match special with
           | some k => some k
           | none =>
               match isRedirectObject gt rv tracked object, property with
               | some .window, .ident pname =>
                   if pname == "location" then some .location
                   else if pname == "navigation" then some .navigation
                   else none
               | _, _ => none)
  | n =>
      (match typeRedirectKind gt n with
       | some k => some k
       | none => none)

/-! ## Visitor state and helpers -/

/-- The per-file mutable state of the rule: the `trackedVariables` map and
the `with`-statement stack (head = top, i.e. the innermost `with`). -/
structure RuleState where
  tracked : List (String × VariableInfo)
  withStack : List (Option RKind)

/-- `getCurrentWithObject`: the top of the `with` stack, with `?? null`
collapsing a pushed `null`. -/
def getCurrentWithObject (st : RuleState) : Option RKind :=
  match st.withStack with
  | [] => none
  | top :: _ => top

/-- `unwrapChainExpression`. -/
def unwrapChainExpression : Node → Node
  | .chain e => e
  | n => n

/-- `s.startsWith pat` on character lists (used to embed the JavaScript
string-containment test). -/
def charListStartsWith : List Char → List Char → Bool
  | _, [] => true
  | [], _ :: _ => false
  | a :: as, b :: bs => a == b && charListStartsWith as bs

/-- Substring search on character lists. -/
def subSearch (hay pat : List Char) : Bool :=
  match hay with
  | [] => charListStartsWith [] pat
  | _ :: rest => charListStartsWith hay pat || subSearch rest pat

/-- The JavaScript test `s.includes(sub)`. -/
def strIncludes (s sub : String) : Bool :=
  subSearch s.data sub.data

/-- The JavaScript test `s.startsWith(pat)`. -/
def strStartsWith (s pat : String) : Bool :=
  charListStartsWith s.data pat.data

/-- `if (!isValueSafe(right)) { context.report(... right ...) }` — the
reported nodes of one such guard. -/
def reportIfUnsafe (gt : TypeOracle) (right : Node) : List Node :=
  if isValueSafe gt right then [] else [right]

/-! ## `AssignmentExpression` visitor -/

/-- The member-expression-target portion of the `AssignmentExpression`
visitor (its first three blocks, with the early `return`s of the source
reflected in the branch structure):
1. a recognized sink property (`getRedirectSinkType`) on an object that
   resolves to `location`;
2. a `.location` property on an object that resolves to `window`, or on a
   global `document`/`globalThis` identifier;
3. a computed member write on an object that resolves to `location`. -/
def memberAssignReports (gt : TypeOracle) (rv : ScopeQuery) (st : RuleState)
    (object property : Node) (computed : Bool) (right : Node) : List Node :=
  let sinkType := getRedirectSinkType (.member object property computed)
  if sinkType.isSome && property.isIdent &&
      (isRedirectObject gt rv st.tracked object == some RKind.location) then
    reportIfUnsafe gt right
  else
    let blockComputed : List Node :=
      if computed &&
          (isRedirectObject gt rv st.tracked object == some RKind.location)
      then reportIfUnsafe gt right else []
    match property with
    | .ident pname =>
        if pname == "location" then
          if isRedirectObject gt rv st.tracked object == some RKind.window then
            reportIfUnsafe gt right
          else
            (match object with
             | .ident oname =>
                 if isGlobalIdentifier rv oname &&
                     (oname == "document" || oname == "globalThis")
                 then reportIfUnsafe gt right else []
             | _ => []) ++ blockComputed
        else blockComputed
    | _ => blockComputed

/-- The identifier-target portion of the `AssignmentExpression` visitor:
a bare identifier resolving to `location`, then the `with`-block logic
(the type-driven `href` check, then the `location`-`with` `href` check). -/
def identAssignReports (gt : TypeOracle) (rv : ScopeQuery) (st : RuleState)
    (name : String) (right : Node) : List Node :=
  if isRedirectObject gt rv st.tracked (.ident name) == some RKind.location
  then reportIfUnsafe gt right
  else
    match getCurrentWithObject st with
    | some w =>
        let typeReturn : Option (List Node) :=
          match gt (.ident name) with
          | some t =>
              if t.display == "string" || strIncludes t.display "Location" then
                if name == "href" && !(isValueSafe gt right)
                then some [right] else none
              else none
          | none => none
        (match typeReturn with
         | some reports => reports
         | none =>
             if w == RKind.location && name == "href"
             then reportIfUnsafe gt right else [])
    | none => []

/-- The `AssignmentExpression` visitor: the member-target blocks run on the
chain-unwrapped left side; the identifier blocks run when the original left
side is an identifier (the two cannot both apply). -/
def assignmentVisitor (gt : TypeOracle) (rv : ScopeQuery) (st : RuleState)
    (left right : Node) : List Node :=
  let memberPart :=
    match unwrapChainExpression left with
    | .member o p c => memberAssignReports gt rv st o p c right
    | _ => []
  let identPart :=
    match left with
    | .ident name => identAssignReports gt rv st name right
    | _ => []
  memberPart ++ identPart

/-! ## `CallExpression` visitor -/

/-- `if (urlArg && !isValueSafe(urlArg)) report(urlArg)` on `args[0]`. -/
def reportFirstArgIfUnsafe (gt : TypeOracle) (args : List Node) : List Node :=
  match args.head? with
  | some urlArg => if isValueSafe gt urlArg then [] else [urlArg]
  | none => []

/-- The `CallExpression` visitor: the `open`-call handling (with its early
`return`), then the `replace`/`assign`/`navigate` member sinks, then the
bare `replace`/`assign` calls inside a `location`-resolved `with` block. -/
def callVisitor (gt : TypeOracle) (rv : ScopeQuery) (st : RuleState)
    (callee : Node) (args : List Node) : List Node :=
  match getOpenCallInfo (.call callee args) with
  | some info =>
      let isValidOpen :=
        match info with
        | .global iname => isGlobalIdentifier rv iname
        | .method obj =>
            isRedirectObject gt rv st.tracked obj == some RKind.window
      if isValidOpen then reportFirstArgIfUnsafe gt args else []
  | none =>
      let memberPart :=
        match unwrapChainExpression callee with
        | .member obj prop c =>
            let sinkType := getRedirectSinkType (.member obj prop c)
            (if (sinkType == some SinkType.replace ||
                  sinkType == some SinkType.assign) &&
                (isRedirectObject gt rv st.tracked obj == some RKind.location)
             then reportFirstArgIfUnsafe gt args else []) ++
            (if sinkType == some SinkType.navigate &&
                (isRedirectObject gt rv st.tracked obj ==
                  some RKind.navigation)
             then reportFirstArgIfUnsafe gt args else [])
        | _ => []
      let identPart :=
        match callee with
        | .ident cname =>
            if getCurrentWithObject st == some RKind.location &&
                (cname == "replace" || cname == "assign")
            then reportFirstArgIfUnsafe gt args else []
        | _ => []
      memberPart ++ identPart

/-! ## Runtime validator (`src/runtime/ensure-trusted-url.ts`)

`new URL(url, base)` is the browser's URL parser, an external oracle; it is
modelled as a function from the input string and the optional base (the
current origin) to the parsed `(protocol, origin)` pair, or `none` on a
parse failure.  The ambient `window.location.origin` probe is modelled as
an `Option String` parameter. -/

/-- The fields of the parsed `URL` object the validator reads. -/
structure ParsedUrl where
  protocol : String
  origin : String
deriving DecidableEq, Repr

/-- The browser URL parser oracle: input string, optional base. -/
abbrev UrlParser := String → Option String → Option ParsedUrl

/-- The error kinds of the validator (the four `TypeError` messages). -/
inductive UrlError where
  | invalidInput | invalidUrl | unsafeProtocol | crossOriginDenied
deriving DecidableEq, Repr

/-- `EnsureTrustedUrlOptions`; `none` means the option was not supplied and
the destructuring default applies. -/
structure EnsureTrustedUrlOptions where
  allowCrossOrigin : Option Bool := none
  allowedProtocols : Option (List String) := none
  allowedOrigins : Option (List String) := none

/-- The defense-in-depth residue of the validator:
`url.toLowerCase().replace(/[^a-z:]/g, "")` — lowercase the raw input, then
keep only the characters `a`–`z` and `:`.  (`Char.toLower` matches
JavaScript `toLowerCase` on the ASCII range, which is all the residue test
can observe.) -/
def jsResidue (url : String) : String :=
  String.mk ((url.data.map Char.toLower).filter
    (fun c => (97 ≤ c.toNat && c.toNat ≤ 122) || c == ':'))

/-- The default for `allowedOrigins`:
`currentOrigin ? [currentOrigin] : []`. -/
def defaultOriginList : Option String → List String
  | some o => [o]
  | none => []

/-- `ensureTrustedUrl`: input check, parse, protocol allow-list, origin
check, then the raw-input `javascript:` residue check; on success the
original string is returned unchanged. -/
def ensureTrustedUrl (parse : UrlParser) (currentOrigin : Option String)
    (url : String) (options : EnsureTrustedUrlOptions) :
    Except UrlError String :=
  let defaultAllowedOrigins := defaultOriginList currentOrigin
  let allowCrossOrigin := options.allowCrossOrigin.getD false
  let allowedProtocols := options.allowedProtocols.getD ["http:", "https:"]
  let allowedOrigins := options.allowedOrigins.getD defaultAllowedOrigins
  if url == "" then .error .invalidInput
  else
    match parse url currentOrigin with
    | none => .error .invalidUrl
    | some parsedUrl =>
        if !(allowedProtocols.contains parsedUrl.protocol) then
          .error .unsafeProtocol
        else
          let isAllowedOrigin := allowedOrigins.contains parsedUrl.origin
          if !isAllowedOrigin && !allowCrossOrigin then
            .error .crossOriginDenied
          else if strStartsWith (jsResidue url) "javascript:" then
            .error .unsafeProtocol
          else .ok url

/-! ## Definitions written from the spec's words, for comparison

These two definitions deliberately follow the specification text (not the
source); they exist only to be compared against the behaviour of the
source-derived definitions above. -/

/-- Following the spec's words for the origin check: "Reject if the parsed
origin is not the current origin and not listed in `allowedOrigins`, unless
`allowCrossOrigin` is true." -/
def specOriginCheckRejects (currentOrigin : Option String)
    (allowedOrigins : List String) (allowCrossOrigin : Bool)
    (origin : String) : Bool :=
  !allowCrossOrigin &&
    !(some origin == currentOrigin || allowedOrigins.contains origin)

/-- Following the spec's words for the defense-in-depth residue: "strip all
characters except lowercase letters and colons from the raw (pre-parse)
input" — with no lowercasing step. -/
def specRawResidue (url : String) : String :=
  String.mk (url.data.filter
    (fun c => (97 ≤ c.toNat && c.toNat ≤ 122) || c == ':'))

/-! ## Scope-chain model for the shadowing claim

A lexical scope chain is a list of per-scope variable sets (name ↦
recorded-definition count), innermost first.  The host's
`getScope(node).set.get` consults only the head — `scopeSetQuery` builds
the `ScopeQuery` the rule actually receives from the innermost scope's own
set.  `boundInChain` follows the claim's words instead: the name is bound
by a local variable, parameter, or function declaration in the occurrence's
scope chain (some enclosing scope records at least one definition). -/

/-- The lookup the source performs: `getScope(node).set.get(name)` on the
innermost scope's own variable set. -/
def scopeSetQuery (set : List (String × Nat)) : ScopeQuery :=
  fun name => set.lookup name

/-- Following the claim's words: the occurrence lies within the scope of a
binding of the name — some scope in the chain (innermost first) records
one or more definitions for it. -/
def boundInChain (chain : List (List (String × Nat))) (name : String) :
    Bool :=
  chain.any (fun set =>
    match set.lookup name with
    | some d => d != 0
    | none => false)

/-- The property name that selects each sink kind in
`getRedirectSinkType`'s switch. -/
def sinkPropertyName : SinkType → String
  | .href => "href"
  | .replace => "replace"
  | .assign => "assign"
  | .navigate => "navigate"
  | .location => "location"

/-! ## Concrete node families used in the claims -/

/-- `window.window.….window` with `n` extra `.window` links. -/
def windowTower : Nat → Node
  | 0 => .ident "window"
  | n + 1 => .member (windowTower n) (.ident "window") false

/-- `window.window.….window.location` with `n` extra `.window` links. -/
def windowLocChain (n : Nat) : Node :=
  .member (windowTower n) (.ident "location") false

/-! ## Helper lemmas -/

/-- One-step unfolding of `isRedirectObject` at an identifier node. -/
theorem isRedirectObject_ident_eq (gt : TypeOracle) (rv : ScopeQuery)
    (tv : List (String × VariableInfo)) (name : String) :
    isRedirectObject gt rv tv (.ident name) =
      (match typeRedirectKind gt (.ident name) with
       | some k => some k
       | none =>
           match tv.lookup name with
           | some vi =>
               if vi.isLocation then some .location
               else if vi.isNavigation then some .navigation
               else if vi.isWindow then some .window
               else globalRedirectKind rv name
           | none => globalRedirectKind rv name) := rfl

/-- One-step unfolding of `isRedirectObject` at a member expression. -/
theorem isRedirectObject_member_eq (gt : TypeOracle) (rv : ScopeQuery)
    (tv : List (String × VariableInfo)) (object property : Node)
    (computed : Bool) :
    isRedirectObject gt rv tv (.member object property computed) =
      (match typeRedirectKind gt (.member object property computed) with
       | some k => some k
       | none =>
           match
             (match object, property with
              | .ident oname, .ident pname =>
                  if pname == "location" && isGlobalIdentifier rv oname &&
                      (oname == "window" || oname == "document" ||
                        oname == "globalThis") then
                    some RKind.location
                  else if oname == "window" && pname == "navigation" &&
                      isGlobalIdentifier rv oname then
                    some RKind.navigation
                  else none
              | _, _ => none) with
           | some k => some k
           | none =>
               match isRedirectObject gt rv tv object, property with
               | some .window, .ident pname =>
                   if pname == "location" then some RKind.location
                   else if pname == "navigation" then some RKind.navigation
                   else none
               | _, _ => none) := rfl

/-- Unfolding of `ensureTrustedUrl` with the option defaults resolved. -/
theorem ensureTrustedUrl_unfold (parse : UrlParser)
    (currentOrigin : Option String) (url : String)
    (options : EnsureTrustedUrlOptions) :
    ensureTrustedUrl parse currentOrigin url options =
      (if url == "" then .error .invalidInput
       else
         match parse url currentOrigin with
         | none => .error .invalidUrl
         | some parsedUrl =>
             if !((options.allowedProtocols.getD
                     ["http:", "https:"]).contains parsedUrl.protocol) then
               .error .unsafeProtocol
             else if !((options.allowedOrigins.getD
                     (defaultOriginList currentOrigin)).contains
                   parsedUrl.origin) &&
                 !(options.allowCrossOrigin.getD false) then
               .error .crossOriginDenied
             else if strStartsWith (jsResidue url) "javascript:" then
               .error .unsafeProtocol
             else .ok url) := rfl

/-- Behaviour of `ensureTrustedUrl` once the input is non-empty and the
parse succeeded. -/
theorem ensureTrustedUrl_stage (parse : UrlParser)
    (currentOrigin : Option String) (url : String)
    (options : EnsureTrustedUrlOptions) (parsedUrl : ParsedUrl)
    (hurl : url ≠ "")
    (hparse : parse url currentOrigin = some parsedUrl) :
    ensureTrustedUrl parse currentOrigin url options =
      (if !((options.allowedProtocols.getD ["http:", "https:"]).contains
            parsedUrl.protocol) then
        .error .unsafeProtocol
      else if !((options.allowedOrigins.getD
            (defaultOriginList currentOrigin)).contains parsedUrl.origin) &&
          !(options.allowCrossOrigin.getD false) then
        .error .crossOriginDenied
      else if strStartsWith (jsResidue url) "javascript:" then
        .error .unsafeProtocol
      else .ok url) := by
  rw [ensureTrustedUrl_unfold, if_neg (by simp [hurl]), hparse]

/-! ## Claims about the runtime validator -/

/-- C8: for every URL-parser oracle, ambient origin, input and options on
which validation succeeds, `ensureTrustedUrl` returns exactly the original
input string, not the parsed or normalized URL.  The embedding is a pure
function returning `Except`, so validation mutates nothing and performs no
navigation, and on failure it produces an error and no value. -/
theorem C8_success_returns_original_input (parse : UrlParser)
    (currentOrigin : Option String) (url : String)
    (options : EnsureTrustedUrlOptions) (r : String)
    (h : ensureTrustedUrl parse currentOrigin url options = .ok r) :
    r = url := by
  rw [ensureTrustedUrl_unfold] at h
  split at h
  · exact absurd h (by simp)
  · split at h
    · exact absurd h (by simp)
    · split at h
      · exact absurd h (by simp)
      · split at h
        · exact absurd h (by simp)
        · split at h
          · exact absurd h (by simp)
          · exact (Except.ok.inj h).symm

/-- Witness for C8 at a concrete successful validation. -/
theorem C8_witness :
    ensureTrustedUrl (fun _ _ => some ⟨"https:", "https://example.com"⟩)
      (some "https://example.com") "/dashboard" {} = .ok "/dashboard" ∧
    ("/dashboard" : String) = "/dashboard" :=
  ⟨rfl, C8_success_returns_original_input
    (fun _ _ => some ⟨"https:", "https://example.com"⟩)
    (some "https://example.com") "/dashboard" {} "/dashboard" rfl⟩

/-- C2 is refuted at a concrete input: with current origin
`https://example.com`, an explicit `allowedOrigins` list that omits the
current origin, and a same-origin URL, the code raises CrossOriginDenied,
while the claim's origin-check predicate (origin equals the current origin
or is listed) says the URL passes. -/
theorem C2_counterexample :
    ensureTrustedUrl (fun _ _ => some ⟨"https:", "https://example.com"⟩)
        (some "https://example.com") "https://example.com/page"
        { allowedOrigins := some ["https://trusted.com"] } =
      .error .crossOriginDenied ∧
    specOriginCheckRejects (some "https://example.com")
        ["https://trusted.com"] false "https://example.com" = false :=
  ⟨rfl, rfl⟩

/-- C2 (amended): when input validation, URL parsing, and the protocol
check pass, `ensureTrustedUrl` raises CrossOriginDenied if and only if
`allowCrossOrigin` is false and the parsed origin is not in the effective
allowed-origins list — the caller-supplied `allowedOrigins` when present
(which replaces, not augments, the current origin), and otherwise the
list containing exactly the current ambient origin. -/
theorem C2_origin_check (parse : UrlParser) (currentOrigin : Option String)
    (url : String) (options : EnsureTrustedUrlOptions) (parsedUrl : ParsedUrl)
    (hurl : url ≠ "")
    (hparse : parse url currentOrigin = some parsedUrl)
    (hproto : (options.allowedProtocols.getD ["http:", "https:"]).contains
        parsedUrl.protocol = true) :
    ensureTrustedUrl parse currentOrigin url options =
        .error .crossOriginDenied ↔
      (options.allowCrossOrigin.getD false = false ∧
        (options.allowedOrigins.getD
          (defaultOriginList currentOrigin)).contains parsedUrl.origin =
          false) := by
  rw [ensureTrustedUrl_stage parse currentOrigin url options parsedUrl hurl
    hparse, hproto]
  cases hco : options.allowCrossOrigin.getD false <;>
    cases horg : (options.allowedOrigins.getD
        (defaultOriginList currentOrigin)).contains parsedUrl.origin <;>
    (try simp) <;> (split <;> simp)

/-- Witness for the amended C2 at a concrete rejected cross-origin URL. -/
theorem C2_witness :
    (ensureTrustedUrl (fun _ _ => some ⟨"https:", "https://evil.com"⟩)
        (some "https://example.com") "https://evil.com/page" {} =
      .error .crossOriginDenied ↔
      ((({} : EnsureTrustedUrlOptions).allowCrossOrigin.getD false = false) ∧
        (({} : EnsureTrustedUrlOptions).allowedOrigins.getD
          ["https://example.com"]).contains "https://evil.com" = false)) :=
  C2_origin_check (fun _ _ => some ⟨"https:", "https://evil.com"⟩)
    (some "https://example.com") "https://evil.com/page" {}
    ⟨"https:", "https://evil.com"⟩ (by decide) rfl (by decide)

/-- C3 is refuted at a concrete input: for the relative URL
`/Ajavascript:x` (all of steps 1–5 pass under default options), the claim's
residue — stripping the raw input to its lowercase letters and colons
without first lowercasing — is `javascript:x`, which starts with
`javascript:`, so the claim demands an UnsafeProtocol rejection; the code
lowercases first, obtains `ajavascript:x`, and accepts the URL. -/
theorem C3_counterexample :
    ensureTrustedUrl (fun _ _ => some ⟨"https:", "https://example.com"⟩)
        (some "https://example.com") "/Ajavascript:x" {} =
      .ok "/Ajavascript:x" ∧
    strStartsWith (specRawResidue "/Ajavascript:x") "javascript:" = true :=
  ⟨rfl, rfl⟩

/-- C3 (amended): when steps 1–5 pass, `ensureTrustedUrl` additionally
raises UnsafeProtocol if and only if the residue obtained by lowercasing
the raw pre-parse input and then stripping all characters except lowercase
letters and colons starts with `javascript:`; otherwise it returns the
input. -/
theorem C3_residue_check (parse : UrlParser) (currentOrigin : Option String)
    (url : String) (options : EnsureTrustedUrlOptions) (parsedUrl : ParsedUrl)
    (hurl : url ≠ "")
    (hparse : parse url currentOrigin = some parsedUrl)
    (hproto : (options.allowedProtocols.getD ["http:", "https:"]).contains
        parsedUrl.protocol = true)
    (horigin : ((options.allowedOrigins.getD
          (defaultOriginList currentOrigin)).contains parsedUrl.origin ||
        options.allowCrossOrigin.getD false) = true) :
    (ensureTrustedUrl parse currentOrigin url options =
        .error .unsafeProtocol ↔
      strStartsWith (jsResidue url) "javascript:" = true) ∧
    (strStartsWith (jsResidue url) "javascript:" = false →
      ensureTrustedUrl parse currentOrigin url options = .ok url) := by
  rw [ensureTrustedUrl_stage parse currentOrigin url options parsedUrl hurl
    hparse, hproto]
  have hcross : (!((options.allowedOrigins.getD
      (defaultOriginList currentOrigin)).contains parsedUrl.origin) &&
      !(options.allowCrossOrigin.getD false)) = false := by
    rcases Bool.or_eq_true_iff.mp horigin with ho | hc
    · simp only [ho, Bool.not_true, Bool.false_and]
    · simp only [hc, Bool.not_true, Bool.and_false]
  rw [hcross]
  constructor
  · constructor
    · intro h
      by_contra hres
      simp only [Bool.not_eq_true] at hres
      simp [hres] at h
    · intro h
      simp [h]
  · intro h
    simp [h]

/-- Witness for the amended C3 at a concrete rejected obfuscated input. -/
theorem C3_witness :
    (ensureTrustedUrl (fun _ _ => some ⟨"https:", "https://example.com"⟩)
        (some "https://example.com") "JAVASCRIPT:alert(1)"
        { allowedProtocols := some ["https:"] } =
      .error .unsafeProtocol ↔
      strStartsWith (jsResidue "JAVASCRIPT:alert(1)") "javascript:" = true) :=
  (C3_residue_check (fun _ _ => some ⟨"https:", "https://example.com"⟩)
    (some "https://example.com") "JAVASCRIPT:alert(1)"
    { allowedProtocols := some ["https:"] }
    ⟨"https:", "https://example.com"⟩ (by decide) rfl (by decide)
    (by decide)).1

/-- C6: with default `allowedProtocols`, any parse result whose protocol is
`javascript:` is rejected as UnsafeProtocol regardless of the other
options; and in general the protocol-membership check precedes the origin
check, so whenever the parsed protocol is not allowed the error is
UnsafeProtocol no matter what the origin is. -/
theorem C6_protocol_before_origin (parse : UrlParser)
    (currentOrigin : Option String) (options : EnsureTrustedUrlOptions)
    (parsedUrl : ParsedUrl) :
    (options.allowedProtocols = none →
      parse "javascript:alert(1)" currentOrigin = some parsedUrl →
      parsedUrl.protocol = "javascript:" →
      ensureTrustedUrl parse currentOrigin "javascript:alert(1)" options =
        .error .unsafeProtocol) ∧
    (∀ url, url ≠ "" →
      parse url currentOrigin = some parsedUrl →
      (options.allowedProtocols.getD ["http:", "https:"]).contains
          parsedUrl.protocol = false →
      ensureTrustedUrl parse currentOrigin url options =
        .error .unsafeProtocol) := by
  constructor
  · intro hdef hparse hproto
    have h2 : (options.allowedProtocols.getD
        ["http:", "https:"]).contains parsedUrl.protocol = false := by
      rw [hdef, hproto]; decide
    rw [ensureTrustedUrl_stage parse currentOrigin "javascript:alert(1)"
      options parsedUrl (by decide) hparse, h2]
    rfl
  · intro url hurl hparse hproto
    rw [ensureTrustedUrl_stage parse currentOrigin url options parsedUrl hurl
      hparse, hproto]
    rfl

/-- Witness for C6 at the concrete `javascript:alert(1)` input with
`allowCrossOrigin` set. -/
theorem C6_witness :
    ensureTrustedUrl (fun _ _ => some ⟨"javascript:", "null"⟩)
      (some "https://example.com") "javascript:alert(1)"
      { allowCrossOrigin := some true } = .error .unsafeProtocol :=
  (C6_protocol_before_origin (fun _ _ => some ⟨"javascript:", "null"⟩)
    (some "https://example.com") { allowCrossOrigin := some true }
    ⟨"javascript:", "null"⟩).1 rfl rfl rfl

/-! ## Claims about the safety classifier -/

/-- A string is of positive length exactly when it is not the empty
string. -/
theorem string_pos_iff_ne_empty (q : String) : 0 < q.length ↔ q ≠ "" := by
  cases q with
  | mk data =>
    cases data with
    | nil => simp [String.length]
    | cons c cs =>
      simp only [String.length]
      constructor
      · intro _ h
        have hd : (c :: cs : List Char) = [] := congrArg String.data h
        simp at hd
      · intro _
        simp

/-- C1 fails on the code: the `+`-chain whose leftmost operand (reached by
the left-descent loop) is the empty string literal `""` is classified SAFE
by `isValueSafe`, because `/^[/\\]+$/` cannot match the empty string and
the string-literal branch — unlike both template branches of the same
function — performs no non-emptiness check.  The claim (and the spec's
"empty literal … unsafe") requires this input to be classified unsafe. -/
theorem C1_empty_string_leftmost_classified_safe :
    descendPlusLeft (Node.lit (.str "")) = Node.lit (.str "") ∧
    isValueSafe (fun _ => none)
      (.binary "+" (.lit (.str "")) (.ident "someVariable")) = true :=
  ⟨rfl, rfl⟩

/-- C5: a template literal with at least one interpolation is classified
safe by `isValueSafe` if and only if its first literal segment is non-empty
and not composed entirely of slash/backslash characters; in particular a
template whose first segment is empty is always unsafe.  This holds for
every type oracle, since the template branch returns before the oracle is
consulted. -/
theorem C5_template_first_segment (gt : TypeOracle) (q : String)
    (qs : List String) (exprs : List Node) (hne : exprs ≠ []) :
    (isValueSafe gt (.template (q :: qs) exprs) = true ↔
      (q ≠ "" ∧ slashOnly q = false)) := by
  have hlen : 0 < exprs.length := List.length_pos.mpr hne
  have hsl : isSafeLiteral (.template (q :: qs) exprs) = false := by
    simp only [isSafeLiteral]
    simpa using Nat.pos_iff_ne_zero.mp hlen
  simp only [isValueSafe, hsl, Bool.false_eq_true, if_false, hlen, if_true,
    List.head?]
  simp [string_pos_iff_ne_empty, Bool.not_eq_true']

/-- Witness for C5 at a concrete safe template `` `x${u}` ``. -/
theorem C5_witness :
    (isValueSafe (fun _ => none) (.template ["x", ""] [.ident "u"]) = true ↔
      (("x" : String) ≠ "" ∧ slashOnly "x" = false)) :=
  C5_template_first_segment (fun _ => none) "x" [""] [.ident "u"]
    (by simp)

/-! ## Claims about the sink-type helper and the resolver -/

/-- C10: `getRedirectSinkType` never returns `location` even though its
declared return type lists it; on a member expression with an identifier
property it returns some kind `k` exactly when `k` is not `location` and
the property bears `k`'s name, and it returns `null` for every non-
identifier property.  A `.location` assignment target is instead reported
by the assignment visitor through the direct property-name comparison
combined with resolving the object to `window` (the final conjunct). -/
theorem C10_sink_type_never_location :
    (∀ n, getRedirectSinkType n ≠ some SinkType.location) ∧
    (∀ obj pname computed k,
      getRedirectSinkType (.member obj (.ident pname) computed) = some k ↔
        (k ≠ SinkType.location ∧ pname = sinkPropertyName k)) ∧
    (∀ obj p computed, p.isIdent = false →
      getRedirectSinkType (.member obj p computed) = none) ∧
    (∀ (gt : TypeOracle) (rv : ScopeQuery) (st : RuleState)
        (obj right : Node),
      isRedirectObject gt rv st.tracked obj = some RKind.window →
      isValueSafe gt right = false →
      assignmentVisitor gt rv st (.member obj (.ident "location") false)
        right = [right]) := by
  have hiff : ∀ obj pname computed k,
      getRedirectSinkType (.member obj (.ident pname) computed) = some k ↔
        (k ≠ SinkType.location ∧ pname = sinkPropertyName k) := by
    intro obj pname computed k
    simp only [getRedirectSinkType]
    split_ifs with h1 h2 h3 h4 <;> cases k <;>
      simp_all [sinkPropertyName, beq_iff_eq]
  refine ⟨?_, hiff, ?_, ?_⟩
  · intro n
    cases n with
    | ident name => simp [getRedirectSinkType]
    | lit v => simp [getRedirectSinkType]
    | template q e => simp [getRedirectSinkType]
    | binary o l r => simp [getRedirectSinkType]
    | call c a => simp [getRedirectSinkType]
    | chain e => simp [getRedirectSinkType]
    | member obj prop computed =>
        cases prop with
        | ident pname =>
            intro h
            exact absurd ((hiff obj pname computed .location).mp h)
              (by simp)
        | lit v => simp [getRedirectSinkType]
        | template q e => simp [getRedirectSinkType]
        | binary o l r => simp [getRedirectSinkType]
        | member o p c => simp [getRedirectSinkType]
        | call c a => simp [getRedirectSinkType]
        | chain e => simp [getRedirectSinkType]
  · intro obj p computed hp
    cases p <;> simp_all [getRedirectSinkType, Node.isIdent]
  · intro gt rv st obj right hw hnotsafe
    have hsink : getRedirectSinkType
        (.member obj (.ident "location") false) = none := rfl
    simp [assignmentVisitor, unwrapChainExpression, memberAssignReports,
      reportIfUnsafe, hsink, hw, hnotsafe]

/-- Witness for C10's visitor conjunct: `w.location = x` with `w` a
tracked alias of `window` and `x` a bare identifier. -/
theorem C10_witness :
    assignmentVisitor (fun _ => none) (fun _ => none)
      ⟨[("w", ⟨false, false, true⟩)], []⟩
      (.member (.ident "w") (.ident "location") false) (.ident "x") =
      [.ident "x"] :=
  (C10_sink_type_never_location).2.2.2 (fun _ => none) (fun _ => none)
    ⟨[("w", ⟨false, false, true⟩)], []⟩ (.ident "w") (.ident "x") rfl rfl

/-- C9: inside a `with` block whose header resolved to any sink kind —
window or navigation as well as location — a bare assignment `href = x` is
reported as an unsafe redirect whenever the type oracle reports a type for
`href` whose display string is `string` or contains `Location`, and `x` is
not classified safe.  (If the resolver happens to resolve the bare `href`
to `location`, the earlier identifier branch reports instead; either way a
diagnostic is produced.) -/
theorem C9_with_block_typed_href (gt : TypeOracle) (rv : ScopeQuery)
    (st : RuleState) (right : Node) (k : RKind) (t : Ty)
    (hwith : getCurrentWithObject st = some k)
    (hty : gt (.ident "href") = some t)
    (hdisp : t.display = "string" ∨ strIncludes t.display "Location" = true)
    (hnotsafe : isValueSafe gt right = false) :
    right ∈ assignmentVisitor gt rv st (.ident "href") right := by
  simp only [assignmentVisitor, unwrapChainExpression, List.nil_append]
  simp only [identAssignReports, hwith, hty]
  cases hloc : (isRedirectObject gt rv st.tracked (.ident "href") ==
      some RKind.location)
  · have hcond : (t.display == "string" ||
        strIncludes t.display "Location") = true := by
      rcases hdisp with h | h
      · simp [h]
      · simp [h]
    simp [hcond, hnotsafe]
  · simp [reportIfUnsafe, hnotsafe]

/-- Witness for C9: `with (window) { href = userInput }` with `href` typed
`string`. -/
theorem C9_witness :
    (Node.ident "userInput") ∈
      assignmentVisitor
        (fun n =>
          match n with
          | .ident "href" => some (.base none none [] "string")
          | _ => none)
        (fun _ => none) ⟨[], [some RKind.window]⟩
        (.ident "href") (.ident "userInput") :=
  C9_with_block_typed_href
    (fun n =>
      match n with
      | .ident "href" => some (.base none none [] "string")
      | _ => none)
    (fun _ => none) ⟨[], [some RKind.window]⟩ (.ident "userInput")
    RKind.window (.base none none [] "string") rfl rfl (Or.inl rfl) rfl

/-- C4 is refuted at a concrete program: `isGlobalIdentifier` reads only
`getScope(node).set` — the innermost scope's own declarations — and never
walks the scope chain.  Take `function f(location) { if (c) {
location = userInput; } }`: at the assignment, the occurrence's scope
chain is `[[], [("location", 1)]]` (the if-body's block scope declares
nothing; the enclosing function scope binds `location`), so the name is
bound within an enclosing scope, yet the lookup the code performs —
`scopeSetQuery []` — finds nothing, the shadowed name is treated as the
global sink, and the assignment IS reported, contradicting the claim's
"anywhere within the binding's scope, including nested inner scopes". -/
theorem C4_counterexample :
    boundInChain [[], [("location", 1)]] "location" = true ∧
    isGlobalIdentifier (scopeSetQuery []) "location" = true ∧
    assignmentVisitor (fun _ => none) (scopeSetQuery []) ⟨[], []⟩
      (.ident "location") (.ident "userInput") = [.ident "userInput"] :=
  ⟨rfl, rfl, rfl⟩

/-- C4 (amended): the suppression holds only at occurrences whose
innermost scope's own variable set records the binding — there, the lookup
(`rv name = some d`, `d ≠ 0`) makes `isGlobalIdentifier` false, a shadowed
`location`/`window`/`navigation` identifier does not resolve to the global
sink object and its assignment produces no diagnostic, and a shadowed
`open` call produces no diagnostic.  It does not extend to nested inner
scopes: the lookup never walks the scope chain, so an occurrence whose own
set lacks the name is treated as global even when an enclosing scope binds
it — the final conjunct, which is also the claim's invariant that an
identifier with zero recorded definitions is global.  The remaining
hypotheses state that the binding is plain shadowing: the type oracle
records nothing for the occurrence and the flat alias map has no entry for
the name. -/
theorem C4_shadowing_suppresses_sink (gt : TypeOracle) (rv : ScopeQuery)
    (st : RuleState) (name : String) (d : Nat) (right : Node)
    (args : List Node)
    (hshadow : rv name = some d) (hd : d ≠ 0)
    (hty : gt (.ident name) = none)
    (htracked : st.tracked.lookup name = none) :
    isGlobalIdentifier rv name = false ∧
    isRedirectObject gt rv st.tracked (.ident name) = none ∧
    ((name = "location" ∨ name = "window" ∨ name = "navigation") →
      assignmentVisitor gt rv st (.ident name) right = []) ∧
    (name = "open" → callVisitor gt rv st (.ident name) args = []) ∧
    (∀ m, rv m = none → isGlobalIdentifier rv m = true) := by
  have hglob : isGlobalIdentifier rv name = false := by
    simp [isGlobalIdentifier, hshadow, hd]
  have hnone : isRedirectObject gt rv st.tracked (.ident name) = none := by
    rw [isRedirectObject_ident_eq]
    simp [typeRedirectKind, hty, htracked, globalRedirectKind, hglob]
  refine ⟨hglob, hnone, ?_, ?_, ?_⟩
  · intro hname
    simp only [assignmentVisitor, unwrapChainExpression, identAssignReports,
      hnone, hty, List.nil_append]
    cases hcw : getCurrentWithObject st with
    | none => simp
    | some w => rcases hname with h | h | h <;> subst h <;> simp
  · intro hname
    subst hname
    simp [callVisitor, getOpenCallInfo, hglob]
  · intro m hm
    simp [isGlobalIdentifier, hm]

/-- Witness for C4: `location` shadowed by a binding with one recorded
definition, no type information, no tracked alias. -/
theorem C4_witness :
    isGlobalIdentifier
        (fun n => if n == "location" then some 1 else none) "location" =
      false ∧
    isRedirectObject (fun _ => none)
        (fun n => if n == "location" then some 1 else none) []
        (.ident "location") = none ∧
    ((("location" : String) = "location" ∨ ("location" : String) = "window" ∨
        ("location" : String) = "navigation") →
      assignmentVisitor (fun _ => none)
        (fun n => if n == "location" then some 1 else none) ⟨[], []⟩
        (.ident "location") (.ident "x") = []) ∧
    (("location" : String) = "open" →
      callVisitor (fun _ => none)
        (fun n => if n == "location" then some 1 else none) ⟨[], []⟩
        (.ident "location") [] = []) ∧
    (∀ m, (fun n => if n == "location" then some 1 else none) m = none →
      isGlobalIdentifier
        (fun n => if n == "location" then some 1 else none) m = true) :=
  C4_shadowing_suppresses_sink (fun _ => none)
    (fun n => if n == "location" then some 1 else none) ⟨[], []⟩
    "location" 1 (.ident "x") [] rfl (by decide) rfl rfl

/-- With no type information and no tracked aliases, a member access whose
property is the identifier `window` never resolves: the lexical recursion
of `isRedirectObject` only maps the properties `location` and
`navigation`. -/
theorem member_window_property_unresolved (rv : ScopeQuery) (o : Node) :
    isRedirectObject (fun _ => none) rv []
      (.member o (.ident "window") false) = none := by
  rw [isRedirectObject_member_eq]
  cases hr : isRedirectObject (fun _ => none) rv [] o with
  | none => cases o <;> simp_all [typeRedirectKind]
  | some k => cases k <;> cases o <;> simp_all [typeRedirectKind]

/-- C7 is refuted at the concrete input `window.window.location` (nesting
depth `n = 1`): with no type information, no tracked aliases, and all
globals unshadowed, the resolver returns `none`, not `location`, because
the intermediate `window.window` member access does not resolve to
`window` under the lexical recursion. -/
theorem C7_counterexample :
    isRedirectObject (fun _ => none) (fun _ => none) []
      (.member (.member (.ident "window") (.ident "window") false)
        (.ident "location") false) = none := rfl

/-- C7 (amended): when the type oracle records nothing for the member
expression itself and the resolver resolves `A` to `window`, `A.location`
resolves to `location` and `A.navigation` to `navigation` (and any other
property to none).  However, the "consequently" clause fails: under
lexical resolution `window.location` (depth 0) resolves to `location`,
but `window.window.….window.location` with `n ≥ 1` extra `.window` links
resolves to none, because the property name `window` is not mapped by the
recursion; such chains are recognized only through the type oracle. -/
theorem C7_window_member_resolution :
    (∀ (gt : TypeOracle) (rv : ScopeQuery)
        (tv : List (String × VariableInfo)) (obj : Node) (pname : String)
        (computed : Bool),
      gt (.member obj (.ident pname) computed) = none →
      isRedirectObject gt rv tv obj = some RKind.window →
      isRedirectObject gt rv tv (.member obj (.ident pname) computed) =
        (if pname = "location" then some RKind.location
         else if pname = "navigation" then some RKind.navigation
         else none)) ∧
    (∀ rv : ScopeQuery, rv "window" = none →
      isRedirectObject (fun _ => none) rv [] (windowLocChain 0) =
        some RKind.location) ∧
    (∀ (rv : ScopeQuery) (n : Nat),
      isRedirectObject (fun _ => none) rv [] (windowLocChain (n + 1)) =
        none) := by
  refine ⟨?_, ?_, ?_⟩
  · intro gt rv tv obj pname computed hty hobj
    rw [isRedirectObject_member_eq]
    simp only [typeRedirectKind, hty]
    cases obj with
    | ident oname =>
        by_cases hp : pname = "location"
        · subst hp
          by_cases hg : (isGlobalIdentifier rv oname &&
              (oname == "window" || oname == "document" ||
                oname == "globalThis")) = true
          · simp [hg]
          · simp only [Bool.not_eq_true] at hg
            simp [hg, hobj]
        · by_cases hp2 : pname = "navigation"
          · subst hp2
            by_cases hg : (oname == "window" &&
                isGlobalIdentifier rv oname) = true
            · simp [hg]
            · simp only [Bool.not_eq_true] at hg
              simp [hg, hobj]
          · simp [hp, hp2, hobj]
    | lit v => simp [hobj]
    | template q e => simp [hobj]
    | binary o l r => simp [hobj]
    | member o p c => simp [hobj]
    | call c a => simp [hobj]
    | chain e => simp [hobj]
  · intro rv h
    have hg : isGlobalIdentifier rv "window" = true := by
      simp [isGlobalIdentifier, h]
    rw [show windowLocChain 0 =
        .member (.ident "window") (.ident "location") false from rfl]
    rw [isRedirectObject_member_eq]
    simp [typeRedirectKind, hg]
  · intro rv n
    have hr : isRedirectObject (fun _ => none) rv []
        (.member (windowTower n) (.ident "window") false) = none :=
      member_window_property_unresolved rv (windowTower n)
    rw [show windowLocChain (n + 1) =
        .member (.member (windowTower n) (.ident "window") false)
          (.ident "location") false from rfl]
    rw [isRedirectObject_member_eq]
    simp [typeRedirectKind, hr]

/-- Witness for the amended C7: `w.location` where `w` is a tracked alias
of `window`. -/
theorem C7_witness :
    isRedirectObject (fun _ => none) (fun _ => none)
      [("w", ⟨false, false, true⟩)]
      (.member (.ident "w") (.ident "location") false) =
      (if ("location" : String) = "location" then some RKind.location
       else if ("location" : String) = "navigation" then
         some RKind.navigation
       else none) :=
  (C7_window_member_resolution).1 (fun _ => none) (fun _ => none)
    [("w", ⟨false, false, true⟩)] (.ident "w") "location" false rfl rfl

end DomSecurity
